import Mathlib

/- Shallow embedding of `main.py`, a FastAPI-based real-time vehicle position
broadcaster ("Uber Vehicle Simulation").  Python floats are modelled as
rationals (`ℚ`).  The transcendental functions drawn from Python's `math`
module (`cos`, `sin`, `sqrt`, `radians`) are abstracted as a structure of
function parameters, since none of the verified properties depend on their
analytic values; theorems quantify over every such interpretation.  Random
draws (`random.uniform`, `random.random`, `random.choice`) are passed in
explicitly as streams, so all theorems quantify over every possible outcome
of the randomness. -/

/-- Abstraction of the functions `main.py` uses from Python's `math` module. -/
structure PyMath where
  cos : ℚ → ℚ
  sin : ℚ → ℚ
  sqrt : ℚ → ℚ
  radians : ℚ → ℚ

/-- Model of Python's `%` on floats (used as `self.direction % 360`):
for modulus `y > 0` it returns `x - y * ⌊x / y⌋`, which lies in `[0, y)`. -/
def pymod (x y : ℚ) : ℚ := x - y * ⌊x / y⌋

/-- The three possible vehicle statuses (`random.choice(["available", "busy", "offline"])`). -/
inductive VStatus where
  | available
  | busy
  | offline
deriving DecidableEq

/-- State of one vehicle: the mutable attributes of class `Vehicle` in `main.py`. -/
structure Vehicle where
  id : String
  lat : ℚ
  lng : ℚ
  speed : ℚ
  direction : ℚ
  status : VStatus
deriving DecidableEq

/-- One call's worth of random draws consumed by `Vehicle.update_position`:
the heading perturbation `random.uniform(-30, 30)`, the two `random.random()`
rolls, and the freshly drawn speed `random.uniform(40, 80)` and status. -/
structure UpdDraw where
  turn : ℚ
  speedRoll : ℚ
  newSpeed : ℚ
  statusRoll : ℚ
  newStatus : VStatus
deriving DecidableEq

/-- Translation of `Vehicle.update_position` (`main.py` lines 34-78).
`uloc` is the current value of the global `user_location` dictionary,
read as `(lat, lng)`. -/
def Vehicle.update_position (v : Vehicle) (m : PyMath) (uloc : ℚ × ℚ) (d : UpdDraw) : Vehicle :=
  -- speed_deg_per_sec = self.speed / 111000 / 3600
  let speed_deg_per_sec := v.speed / 111000 / 3600
  -- self.direction += random.uniform(-30, 30); self.direction = self.direction % 360
  let direction1 := pymod (v.direction + d.turn) 360
  -- new_lat / new_lng from cosine / sine of the heading in radians
  let new_lat := v.lat + speed_deg_per_sec * m.cos (m.radians direction1)
  let new_lng := v.lng + speed_deg_per_sec * m.sin (m.radians direction1)
  -- distance_from_user = math.sqrt(lat_diff**2 + lng_diff**2)
  let lat_diff := new_lat - uloc.1
  let lng_diff := new_lng - uloc.2
  let distance_from_user := m.sqrt (lat_diff ^ 2 + lng_diff ^ 2)
  -- max_distance = 0.09
  let max_distance : ℚ := 9 / 100
  let v1 :=
    if distance_from_user > max_distance then
      -- reverse heading, keep the old position
      { v with direction := pymod (direction1 + 180) 360 }
    else
      -- normal position update
      { v with direction := direction1, lat := new_lat, lng := new_lng }
  -- 10% chance: re-draw speed; 5% chance: re-draw status
  let v2 := if d.speedRoll < 1 / 10 then { v1 with speed := d.newSpeed } else v1
  if d.statusRoll < 1 / 20 then { v2 with status := d.newStatus } else v2

/-- Iterated `update_position`: `n` successive calls, the `k`-th call consuming
the draws `ds k`, all against the same reference location. -/
def Vehicle.iterate_updates (m : PyMath) (uloc : ℚ × ℚ) (ds : ℕ → UpdDraw) :
    ℕ → Vehicle → Vehicle
  | 0, v => v
  | n + 1, v => (Vehicle.iterate_updates m uloc ds n v).update_position m uloc (ds n)

/-- The bound `Vehicle.update_position` enforces: the distance expression the
code computes (`math.sqrt` of the summed squared coordinate differences from
the user location) is at most `0.09` degrees. -/
def withinUserBound (m : PyMath) (uloc : ℚ × ℚ) (v : Vehicle) : Prop :=
  m.sqrt ((v.lat - uloc.1) ^ 2 + (v.lng - uloc.2) ^ 2) ≤ 9 / 100

/-- Rounding of a rational to an integer the way Python's built-in `round`
rounds floats: round half to even. -/
def roundHalfEven (x : ℚ) : ℤ :=
  let f := ⌊x⌋
  let r := x - f
  if r < 1 / 2 then f
  else if 1 / 2 < r then f + 1
  else if Even f then f else f + 1

/-- Model of Python's `round(x, ndigits)`. -/
def pyRound (x : ℚ) (ndigits : ℕ) : ℚ :=
  (roundHalfEven (x * 10 ^ ndigits) : ℚ) / 10 ^ ndigits

/-- Result of `Vehicle.to_dict`: the per-vehicle snapshot dictionary. -/
structure VehicleDict where
  id : String
  lat : ℚ
  lng : ℚ
  speed : ℚ
  direction : ℚ
  status : VStatus
  timestamp : ℚ
deriving DecidableEq

/-- Translation of `Vehicle.to_dict` (`main.py` lines 80-94); `now` is the
value `time.time()` returns at serialization time. -/
def Vehicle.to_dict (v : Vehicle) (now : ℚ) : VehicleDict :=
  { id := v.id, lat := pyRound v.lat 6, lng := pyRound v.lng 6,
    speed := pyRound v.speed 1, direction := pyRound v.direction 1,
    status := v.status, timestamp := now }

/- ----------------------------------------------------------------------
Decimal rendering of vehicle ids.  `f"UBER-{i:03d}"` zero-pads the decimal
representation of `i` to a minimum width of 3 characters.
---------------------------------------------------------------------- -/

/-- Character for a decimal digit (`0 ↦ '0'`, ..., `9 ↦ '9'`). -/
def digitChar (d : ℕ) : Char := Char.ofNat (48 + d)

/-- Little-endian decimal digits of `n`, computed with explicit fuel so the
definition is structurally recursive (fuel `n` always suffices). -/
def digitsAux10 : ℕ → ℕ → List ℕ
  | _, 0 => []
  | 0, _ + 1 => []
  | fuel + 1, n + 1 => (n + 1) % 10 :: digitsAux10 fuel ((n + 1) / 10)

/-- Little-endian decimal digits of `n`. -/
def decDigits (n : ℕ) : List ℕ := digitsAux10 n n

/-- Decimal string of a natural number, as Python's `str`. -/
def decRepr (n : ℕ) : String :=
  if n = 0 then "0" else String.mk (((decDigits n).map digitChar).reverse)

/-- Python's `f"{n:03d}"`: decimal representation zero-padded to width 3. -/
def pad3 (n : ℕ) : String :=
  if n < 10 then "00" ++ decRepr n
  else if n < 100 then "0" ++ decRepr n
  else decRepr n

/-- String prepended to every vehicle id. -/
def uberTag : String := "UBER-"

/-- Vehicle id label: `f"UBER-{n:03d}"`. -/
def mkId (n : ℕ) : String := uberTag ++ pad3 n

/-- Value of a little-endian list of decimal digits. -/
def ofDigits10 : List ℕ → ℕ
  | [] => 0
  | d :: ds => d + 10 * ofDigits10 ds

/-- Numeric value of a digit character. -/
def sub48 (c : Char) : ℕ := c.toNat - 48

/-- Numeric value of a decimal digit string (ignoring leading zeros). -/
def decVal (s : String) : ℕ := ofDigits10 ((s.data.map sub48).reverse)

/-- Decoder for vehicle ids: drop the five characters of `"UBER-"` and read
the remaining decimal digits. -/
def decodeId (s : String) : ℕ := decVal (String.mk (s.data.drop 5))

/- ----------------------------------------------------------------------
Fleet generator.
---------------------------------------------------------------------- -/

/-- Random draws consumed by `create_vehicles_around_location`, per loop
index `k` (0-based): the placement angle `random.uniform(0, 2*3.14159)` and
radial distance `random.uniform(0, radius_deg)`, plus the draws made by
`Vehicle.__init__` (speed `random.uniform(40, 80)`, direction
`random.uniform(0, 360)`, status `random.choice(...)`). -/
structure GenDraws where
  angle : ℕ → ℚ
  dist : ℕ → ℚ
  speed : ℕ → ℚ
  direction : ℕ → ℚ
  status : ℕ → VStatus

/-- Translation of `create_vehicles_around_location` (`main.py` lines 138-166).
The Python loop runs `i` over `range(1, count + 1)`; here `k` runs over
`List.range count` with `i = k + 1`. -/
def create_vehicles_around_location (m : PyMath) (g : GenDraws)
    (lat lng : ℚ) (count : ℕ) (radius_km : ℚ) : List Vehicle :=
  (List.range count).map (fun k =>
    let radius_deg := radius_km / 111
    let angle := g.angle k
    let distance := g.dist k
    let vehicle_lat := lat + distance * m.cos angle
    let vehicle_lng := lng + distance * m.sin angle
    { id := mkId (k + 1), lat := vehicle_lat, lng := vehicle_lng,
      speed := g.speed k, direction := g.direction k, status := g.status k })

/-- Default of the global `user_location` dictionary: Taipei `(25.1, 121.55)`. -/
def initial_user_location : ℚ × ℚ := (251 / 10, 12155 / 100)

/-- Module-level initialization: `create_vehicles_around_location(25.1, 121.55)`
with the default `count=10`, `radius_km=5`. -/
def initial_vehicles (m : PyMath) (g : GenDraws) : List Vehicle :=
  create_vehicles_around_location m g (251 / 10) (12155 / 100) 10 5

/- ----------------------------------------------------------------------
Connection manager.  Channels are identified by natural numbers; the
`active_connections` list holds the registered channels in order.  A
best-effort send either succeeds or raises, which we model by the predicate
`ok : ℕ → Bool` saying whether `connection.send_text` succeeds on a channel.
---------------------------------------------------------------------- -/

/-- Translation of `ConnectionManager.connect`: append the channel. -/
def connect (conns : List ℕ) (c : ℕ) : List ℕ := conns ++ [c]

/-- Translation of `ConnectionManager.disconnect`, i.e. Python's
`list.remove`: remove the first occurrence, or raise `ValueError` (modelled
as `none`) when the element is absent. -/
def disconnect (conns : List ℕ) (c : ℕ) : Option (List ℕ) :=
  if c ∈ conns then some (conns.erase c) else none

/-- Iteration engine of `ConnectionManager.broadcast`.  Python's list
iterator keeps a bare index: after yielding position `i` it advances to
`i + 1` even if the body removed the element at position `i`, so the element
that slid into position `i` is skipped.  `fuel` bounds the number of
iterations; the initial list length always suffices because the index grows
by one per iteration while the list never grows.  Returns the final
`active_connections` list and the channels actually sent to. -/
def broadcastAux (ok : ℕ → Bool) : ℕ → List ℕ → ℕ → List ℕ × List ℕ
  | 0, conns, _ => (conns, [])
  | fuel + 1, conns, i =>
    match conns[i]? with
    | none => (conns, [])
    | some c =>
      if ok c then
        let r := broadcastAux ok fuel conns (i + 1)
        (r.1, c :: r.2)
      else
        -- except: self.active_connections.remove(connection)
        broadcastAux ok fuel (conns.erase c) (i + 1)

/-- Translation of `ConnectionManager.broadcast` (`main.py` lines 119-130):
returns the final connection list and the list of channels the message was
delivered to. -/
def broadcast (ok : ℕ → Bool) (conns : List ℕ) : List ℕ × List ℕ :=
  broadcastAux ok conns.length conns 0

/- ----------------------------------------------------------------------
Inbound messages and the session handler.
---------------------------------------------------------------------- -/

/-- JSON values relevant to the session handler: numbers, strings, `null`. -/
inductive JVal where
  | num (x : ℚ)
  | str (s : String)
  | null
deriving DecidableEq

/-- Python truthiness of the JSON values above: `0`, `""` and `None` are
falsy, everything else truthy. -/
def jTruthy : JVal → Bool
  | .num x => x != 0
  | .str s => s != ""
  | .null => false

/-- Truthiness of a `dict.get` result (`None` for a missing key is falsy). -/
def jTruthyOpt : Option JVal → Bool
  | none => false
  | some v => jTruthy v

/-- A parsed JSON object, as produced by `json.loads` on a JSON object
literal: association list from keys to values (keys unique). -/
def PyDict : Type := List (String × JVal)

/-- Model of Python's `dict.get`. -/
def pyGet (d : PyDict) (k : String) : Option JVal := List.lookup k d

/-- The key strings the handler looks up. -/
def typeKey : String := "type"

/-- Key of the latitude field. -/
def latKey : String := "lat"

/-- Key of the longitude field. -/
def lngKey : String := "lng"

/-- Tag of an inbound location update. -/
def userLocationTag : String := "user_location"

/-- Process-wide mutable state touched by one iteration of the handler's
receive loop: the globals `user_location` (whose entries can be overwritten
with arbitrary JSON values) and `vehicles`, plus the connection manager's
`active_connections`. -/
structure ServerState where
  userLoc : JVal × JVal
  vehicles : List Vehicle
  conns : List ℕ
deriving DecidableEq

/-- Outbound server messages (the JSON payloads built in `main.py`); the
`type` discriminator string is modelled as the constructor. -/
inductive OutMsg where
  | initialData (vehicles : List VehicleDict) (uloc : JVal × JVal)
  | vehicleUpdate (vehicles : List VehicleDict)
  | locationUpdated (vehicles : List VehicleDict) (uloc : JVal × JVal)
deriving DecidableEq

/-- Serialization of a fleet, as the comprehension
`[vehicle.to_dict() for vehicle in vehicles]`; `ts k` is the wall-clock value
`time.time()` returns for the `k`-th vehicle. -/
def snapshotList (ts : ℕ → ℚ) (vs : List Vehicle) : List VehicleDict :=
  vs.enum.map (fun p => p.2.to_dict (ts p.1))

/-- Outcome of one iteration of the receive loop in `websocket_endpoint`:
either the loop continues normally (with the new state and the
channel/message pairs delivered through `manager.broadcast`), or an uncaught
exception propagates out of the handler (`crash`) — the server then closes
the connection, and since only `WebSocketDisconnect` triggers
`manager.disconnect`, the channel is never unregistered on that path. -/
inductive StepOutcome where
  | ok (st : ServerState) (deliveries : List (ℕ × OutMsg))
  | crash (st : ServerState)
deriving DecidableEq

/-- Translation of the body of the receive loop of `websocket_endpoint`
(`main.py` lines 248-270).  `msg` is the result of
`json.loads(await websocket.receive_text())`: `none` stands for a payload on
which `json.loads` (or the subsequent `message.get`) raises — the exception
is not caught, so the step crashes with the state unchanged.  A message of
type `"user_location"` whose `lat` and `lng` are both truthy first overwrites
the global `user_location`; if either value is not a number,
`create_vehicles_around_location` then raises a `TypeError` (after the
overwrite).  Otherwise the fleet is regenerated with the default
`count=10, radius_km=5` and a `location_updated` payload is broadcast. -/
def websocket_receive_step (m : PyMath) (g : GenDraws) (ts : ℕ → ℚ) (ok : ℕ → Bool)
    (st : ServerState) (msg : Option PyDict) : StepOutcome :=
  match msg with
  | none => .crash st
  | some message =>
    if pyGet message typeKey = some (JVal.str userLocationTag) then
      match pyGet message latKey, pyGet message lngKey with
      | some new_lat, some new_lng =>
        if jTruthy new_lat && jTruthy new_lng then
          match new_lat, new_lng with
          | .num a, .num b =>
            let vehicles := create_vehicles_around_location m g a b 10 5
            let st1 : ServerState :=
              { userLoc := (JVal.num a, JVal.num b), vehicles := vehicles, conns := st.conns }
            let update_data := OutMsg.locationUpdated (snapshotList ts vehicles) st1.userLoc
            let bc := broadcast ok st.conns
            .ok { st1 with conns := bc.1 } (bc.2.map (fun c => (c, update_data)))
          | la, lb =>
            -- user_location was already overwritten; TypeError follows
            .crash { st with userLoc := (la, lb) }
        else .ok st []
      | _, _ => .ok st []
    else .ok st []

/- ----------------------------------------------------------------------
Simulation loop.
---------------------------------------------------------------------- -/

/-- Fleet advancement of one simulation tick:
`for vehicle in vehicles: vehicle.update_position()`.  Each vehicle's update
reads only its own state and `user_location`, so the sequential in-place loop
equals an index-wise map; `ds k` are the draws consumed by the `k`-th
vehicle. -/
def updateFleet (m : PyMath) (uloc : ℚ × ℚ) (ds : ℕ → UpdDraw) (vs : List Vehicle) :
    List Vehicle :=
  vs.enum.map (fun p => p.2.update_position m uloc (ds p.1))

/-- Everything one iteration of `vehicle_simulation` produces. -/
structure TickResult where
  vehicles : List Vehicle
  msg : OutMsg
  conns : List ℕ
  deliveries : List (ℕ × OutMsg)
  sleep : ℚ
deriving DecidableEq

/-- Translation of one iteration of the `while True` loop of
`vehicle_simulation` (`main.py` lines 173-191): advance every vehicle, build
the single `vehicle_update` payload from the fully updated fleet, hand it to
`manager.broadcast`, then `await asyncio.sleep(0.5)`. -/
def vehicle_simulation_tick (m : PyMath) (ds : ℕ → UpdDraw) (ts : ℕ → ℚ) (ok : ℕ → Bool)
    (uloc : ℚ × ℚ) (vs : List Vehicle) (conns : List ℕ) : TickResult :=
  let vs2 := updateFleet m uloc ds vs
  let msg := OutMsg.vehicleUpdate (snapshotList ts vs2)
  let bc := broadcast ok conns
  { vehicles := vs2, msg := msg, conns := bc.1,
    deliveries := bc.2.map (fun c => (c, msg)), sleep := 1 / 2 }

/-- State (fleet, connection list) after `n` iterations of the simulation
loop; the per-tick streams are indexed by the tick number. -/
def vehicle_simulation_state (m : PyMath) (ds : ℕ → ℕ → UpdDraw) (ts : ℕ → ℕ → ℚ)
    (ok : ℕ → ℕ → Bool) (uloc : ℚ × ℚ) (init : List Vehicle × List ℕ) :
    ℕ → List Vehicle × List ℕ
  | 0 => init
  | n + 1 =>
    let st := vehicle_simulation_state m ds ts ok uloc init n
    let r := vehicle_simulation_tick m (ds n) (ts n) (ok n) uloc st.1 st.2
    (r.vehicles, r.conns)

/- ----------------------------------------------------------------------
Concrete interpretations and inputs used by the witnesses below.
---------------------------------------------------------------------- -/

/-- Interpretation sending every `math` function to the zero function. -/
def mZero : PyMath := { cos := fun _ => 0, sin := fun _ => 0, sqrt := fun _ => 0, radians := fun _ => 0 }

/-- Interpretation with `cos = 1`, `sin = 0`, `sqrt = 0`, `radians = id`. -/
def mOne : PyMath := { cos := fun _ => 1, sin := fun _ => 0, sqrt := fun _ => 0, radians := fun x => x }

/-- Generator draws that are all zero / `available`. -/
def gZero : GenDraws :=
  { angle := fun _ => 0, dist := fun _ => 0, speed := fun _ => 0,
    direction := fun _ => 0, status := fun _ => .available }

/-- Update draws with no perturbation and rolls that trigger no re-draw. -/
def dZero : UpdDraw :=
  { turn := 0, speedRoll := 1, newSpeed := 0, statusRoll := 1, newStatus := .available }

/-- A vehicle sitting exactly on the reference point. -/
def vZero : Vehicle :=
  { id := mkId 1, lat := 0, lng := 0, speed := 60, direction := 0, status := .available }

/-- A vehicle used for the displacement evaluation: speed 80, heading 0. -/
def vEighty : Vehicle :=
  { id := mkId 1, lat := 0, lng := 0, speed := 80, direction := 0, status := .available }

/-- A server state with an integer-valued reference location, an empty fleet
and one registered channel. -/
def stInit : ServerState :=
  { userLoc := (JVal.num 25, JVal.num 121), vehicles := [], conns := [3] }

/-- Inbound message `{type: "user_location", lat: 1, lng: 2}`. -/
def dGood : PyDict :=
  [(typeKey, JVal.str userLocationTag), (latKey, JVal.num 1), (lngKey, JVal.num 2)]

/-- Inbound message `{type: "user_location", lat: "bad"}` (the spec's malformed
scenario: `lng` missing). -/
def dBad : PyDict :=
  [(typeKey, JVal.str userLocationTag), (latKey, JVal.str ("bad"))]

/-- Inbound message `{type: "user_location", lat: 0, lng: 2}`: numeric
coordinates with a zero latitude. -/
def dZeroLat : PyDict :=
  [(typeKey, JVal.str userLocationTag), (latKey, JVal.num 0), (lngKey, JVal.num 2)]

/-- Inbound message `{type: "user_location", lat: 0, lng: 5}`. -/
def dZeroLat5 : PyDict :=
  [(typeKey, JVal.str userLocationTag), (latKey, JVal.num 0), (lngKey, JVal.num 5)]

/-- Per-tick update-draw streams that are all `dZero`. -/
def dsZ : ℕ → ℕ → UpdDraw := fun _ _ => dZero

/-- Per-tick timestamp streams that are all `0`. -/
def tsZ : ℕ → ℕ → ℚ := fun _ _ => 0

/-- Send-success predicate: every send succeeds on every tick. -/
def okT : ℕ → ℕ → Bool := fun _ _ => true

/- ----------------------------------------------------------------------
Theorems.
---------------------------------------------------------------------- -/

theorem pymod_eq_mul_fract (x : ℚ) : pymod x 360 = 360 * Int.fract (x / 360) := by
  unfold pymod Int.fract
  field_simp

theorem pymod_nonneg (x : ℚ) : 0 ≤ pymod x 360 := by
  rw [pymod_eq_mul_fract]
  exact mul_nonneg (by norm_num) (Int.fract_nonneg _)

theorem pymod_lt (x : ℚ) : pymod x 360 < 360 := by
  rw [pymod_eq_mul_fract]
  have h := Int.fract_lt_one (x / 360)
  nlinarith [Int.fract_nonneg (x / 360)]

theorem update_position_direction_bounds (v : Vehicle) (m : PyMath) (uloc : ℚ × ℚ)
    (d : UpdDraw) :
    0 ≤ (v.update_position m uloc d).direction ∧ (v.update_position m uloc d).direction < 360 := by
  unfold Vehicle.update_position
  dsimp only
  split_ifs <;> exact ⟨pymod_nonneg _, pymod_lt _⟩

/-- Claim C5: for every entity, after any number `n ≥ 1` of
`update_position` calls — for every interpretation of the math functions,
every reference location and every outcome of the random draws (covering the
whole perturbation range `[-30, 30]` and both sides of the boundary-policy
branch, including the `+180` reversal) — the heading lies in `[0, 360)`. -/
theorem heading_normalized (m : PyMath) (uloc : ℚ × ℚ) (ds : ℕ → UpdDraw)
    (v : Vehicle) (n : ℕ) (hn : 1 ≤ n) :
    0 ≤ (Vehicle.iterate_updates m uloc ds n v).direction ∧
      (Vehicle.iterate_updates m uloc ds n v).direction < 360 := by
  obtain ⟨k, rfl⟩ : ∃ k, n = k + 1 := ⟨n - 1, (Nat.succ_pred_eq_of_pos hn).symm⟩
  exact update_position_direction_bounds _ m uloc (ds k)

/-- Witness for C5: one update of a concrete vehicle under a concrete
interpretation leaves the heading in `[0, 360)`. -/
theorem heading_normalized_witness :
    0 ≤ (Vehicle.iterate_updates mZero (0, 0) (fun _ => dZero) 1 vZero).direction ∧
      (Vehicle.iterate_updates mZero (0, 0) (fun _ => dZero) 1 vZero).direction < 360 :=
  heading_normalized mZero (0, 0) (fun _ => dZero) vZero 1 (by decide)

/-- Claim C6: if an entity's position is within the configured bound of the
reference location (the code's distance expression is at most `0.09`), then
after one `update_position` call against that same reference location it
still is: the move branch is taken only when the tentative position passes
the very same distance check, and the reversal branch leaves the position
unchanged. -/
theorem position_bound_preserved (m : PyMath) (uloc : ℚ × ℚ) (d : UpdDraw)
    (v : Vehicle) (h : withinUserBound m uloc v) :
    withinUserBound m uloc (v.update_position m uloc d) := by
  unfold withinUserBound at h ⊢
  unfold Vehicle.update_position
  dsimp only
  split_ifs with h1 h2 h3 <;> simp_all

/-- Witness for C6: a concrete vehicle sitting on the reference point stays
within the bound after one update. -/
theorem position_bound_preserved_witness :
    withinUserBound mZero (0, 0) (vZero.update_position mZero (0, 0) dZero) :=
  position_bound_preserved mZero (0, 0) dZero vZero
    (by simp [withinUserBound, mZero]
        norm_num)

/-- Claim C3 (evaluation): the displacement `update_position` actually
applies.  With `cos` interpreted as the constant `1` and `sin` as `0`, a
vehicle at the reference point with speed `80` and heading `0` moves its
latitude by exactly `80 / 111000 / 3600` degrees — the code divides by
`111000`, not by the `111.0` the specification states, so the magnitude is
a factor 1000 smaller than claimed. -/
theorem displacement_constant_eval :
    (vEighty.update_position mOne (0, 0) dZero).lat = 80 / 111000 / 3600 ∧
      (80 / 111000 / 3600 : ℚ) ≠ 80 / 111 / 3600 := by
  constructor
  · norm_num [Vehicle.update_position, mOne, dZero, vEighty, pymod]
  · norm_num

theorem broadcastAux_all_ok (ok : ℕ → Bool) (hok : ∀ c, ok c = true) :
    ∀ (fuel : ℕ) (conns : List ℕ) (i : ℕ), conns.length ≤ fuel + i →
      broadcastAux ok fuel conns i = (conns, conns.drop i) := by
  intro fuel
  induction fuel with
  | zero =>
    intro conns i hle
    rw [Nat.zero_add] at hle
    rw [broadcastAux, List.drop_eq_nil_of_le hle]
  | succ f ih =>
    intro conns i hle
    rw [broadcastAux]
    cases hget : conns[i]? with
    | none =>
      rw [List.getElem?_eq_none_iff] at hget
      rw [List.drop_eq_nil_of_le hget]
    | some c =>
      have hlt : i < conns.length := by
        by_contra hcon
        rw [List.getElem?_eq_none_iff.mpr (Nat.le_of_not_lt hcon)] at hget
        exact Option.noConfusion hget
      dsimp only
      rw [hok c]
      simp only [if_true]
      rw [ih conns (i + 1) (by omega)]
      have hc : conns[i] = c := by
        rw [List.getElem?_eq_some_iff] at hget
        exact hget.2.symm ▸ rfl
      rw [List.drop_eq_getElem_cons hlt, hc]

/-- With every send succeeding, `broadcast` delivers to every registered
channel in order and leaves the subscriber list unchanged. -/
theorem broadcast_all_ok (ok : ℕ → Bool) (hok : ∀ c, ok c = true) (conns : List ℕ) :
    broadcast ok conns = (conns, conns) := by
  rw [broadcast, broadcastAux_all_ok ok hok conns.length conns 0 (by omega), List.drop_zero]

/-- Claim C1 (evaluation): `broadcast` over the two registered channels
`[0, 1]`, where the send to channel `0` raises and the send to channel `1`
would succeed.  The failed channel is removed inside the iteration, Python's
list iterator then skips the element that slid into its position, so the
surviving channel `1` receives nothing: the final subscriber list is `[1]`
(as the claim says) but the delivered list is `[]`, not `[1]`. -/
theorem broadcast_skips_after_failed_send :
    broadcast (fun c => c == 1) [0, 1] = ([1], []) ∧
      ([] : List ℕ) ≠ [1] := by
  constructor
  · decide
  · decide

/-- Claim C4 (counterexample): `disconnect` on an absent channel is not a
no-op — `list.remove` raises `ValueError` (modelled as `none`), it does not
return the unchanged subscriber set. -/
theorem disconnect_absent_errors :
    disconnect [] 0 = none ∧ disconnect [] 0 ≠ some [] := by
  constructor
  · decide
  · decide

/-- Claim C4 (amended): `disconnect` removes the first occurrence of a
registered channel, and — for a duplicate-free subscriber set — calling it a
second time for the same channel raises (`none`) instead of being a no-op. -/
theorem disconnect_removes_then_raises (conns : List ℕ) (c : ℕ)
    (hmem : c ∈ conns) (hnd : conns.Nodup) :
    disconnect conns c = some (conns.erase c) ∧ disconnect (conns.erase c) c = none := by
  constructor
  · rw [disconnect, if_pos hmem]
  · rw [disconnect, if_neg]
    exact fun hcon => (List.Nodup.mem_erase_iff hnd).mp hcon |>.1 rfl

/-- Witness for the amended C4 at a concrete subscriber set. -/
theorem disconnect_removes_then_raises_witness :
    disconnect [7, 8] 7 = some ([7, 8].erase 7) ∧ disconnect ([7, 8].erase 7) 7 = none :=
  disconnect_removes_then_raises [7, 8] 7 (by decide) (by decide)

theorem digitsAux10_mem_lt :
    ∀ (fuel n d : ℕ), d ∈ digitsAux10 fuel n → d < 10 := by
  intro fuel
  induction fuel with
  | zero =>
    intro n d hd
    cases n <;> simp [digitsAux10] at hd
  | succ f ih =>
    intro n d hd
    cases n with
    | zero => simp [digitsAux10] at hd
    | succ k =>
      rw [digitsAux10] at hd
      rcases List.mem_cons.mp hd with h1 | h2
      · rw [h1]; exact Nat.mod_lt _ (by omega)
      · exact ih _ _ h2

theorem ofDigits10_digitsAux10 :
    ∀ (fuel n : ℕ), n ≤ fuel → ofDigits10 (digitsAux10 fuel n) = n := by
  intro fuel
  induction fuel with
  | zero =>
    intro n hn
    interval_cases n
    rfl
  | succ f ih =>
    intro n hn
    cases n with
    | zero => rfl
    | succ k =>
      rw [digitsAux10, ofDigits10]
      have hdiv : (k + 1) / 10 ≤ f := by
        have := Nat.div_lt_self (Nat.succ_pos k) (by omega : 1 < 10)
        omega
      rw [ih _ hdiv, Nat.mod_add_div]

theorem ofDigits10_append (l1 l2 : List ℕ) :
    ofDigits10 (l1 ++ l2) = ofDigits10 l1 + 10 ^ l1.length * ofDigits10 l2 := by
  induction l1 with
  | nil => simp [ofDigits10]
  | cons d ds ih =>
    rw [List.cons_append, ofDigits10, ofDigits10, ih, List.length_cons]
    ring

theorem ofDigits10_zeros (l : List ℕ) (h : ∀ d ∈ l, d = 0) : ofDigits10 l = 0 := by
  induction l with
  | nil => rfl
  | cons d ds ih =>
    rw [ofDigits10, h d (List.mem_cons_self d ds), ih fun x hx => h x (List.mem_cons_of_mem d hx)]

theorem sub48_digitChar : ∀ d : ℕ, d < 10 → sub48 (digitChar d) = d := by decide

theorem decVal_zeros_decRepr (pre : List Char) (hpre : ∀ c ∈ pre, sub48 c = 0) (n : ℕ) :
    ofDigits10 (((pre ++ (decRepr n).data).map sub48).reverse) = n := by
  rw [List.map_append, List.reverse_append, ofDigits10_append]
  have hz : ofDigits10 ((pre.map sub48).reverse) = 0 := by
    apply ofDigits10_zeros
    intro d hd
    rw [List.mem_reverse] at hd
    obtain ⟨c, hc, rfl⟩ := List.mem_map.mp hd
    exact hpre c hc
  rw [hz, Nat.mul_zero, Nat.add_zero]
  by_cases h0 : n = 0
  · subst h0
    rfl
  · rw [decRepr, if_neg h0]
    show ofDigits10 (((((decDigits n).map digitChar).reverse).map sub48).reverse) = n
    rw [List.map_reverse, List.reverse_reverse, List.map_map]
    have hmap : (decDigits n).map (sub48 ∘ digitChar) = decDigits n := by
      have h1 : (decDigits n).map (sub48 ∘ digitChar) = (decDigits n).map id :=
        List.map_congr_left fun a ha => sub48_digitChar a (digitsAux10_mem_lt n n a ha)
      rw [h1, List.map_id]
    rw [hmap]
    exact ofDigits10_digitsAux10 n n le_rfl

theorem decVal_pad3 (n : ℕ) : decVal (pad3 n) = n := by
  rw [pad3]
  split_ifs with h1 h2
  · show ofDigits10 (((("00" ++ decRepr n) : String).data.map sub48).reverse) = n
    rw [String.data_append]
    exact decVal_zeros_decRepr ("00").data (by decide) n
  · show ofDigits10 (((("0" ++ decRepr n) : String).data.map sub48).reverse) = n
    rw [String.data_append]
    exact decVal_zeros_decRepr ("0").data (by decide) n
  · show ofDigits10 (((decRepr n).data.map sub48).reverse) = n
    have h := decVal_zeros_decRepr [] (by decide) n
    rw [List.nil_append] at h
    exact h

theorem decodeId_mkId (n : ℕ) : decodeId (mkId n) = n := by
  rw [decodeId, mkId, uberTag]
  have hdata : (("UBER-" ++ pad3 n) : String).data.drop 5 = (pad3 n).data := by
    rw [String.data_append]
    rfl
  rw [hdata]
  exact decVal_pad3 n

theorem mkId_injective : Function.Injective mkId :=
  Function.LeftInverse.injective decodeId_mkId

/-- The ids produced by `create_vehicles_around_location` are exactly
`mkId 1, ..., mkId count`, in order. -/
theorem create_vehicles_ids (m : PyMath) (g : GenDraws) (lat lng radius_km : ℚ)
    (count : ℕ) :
    (create_vehicles_around_location m g lat lng count radius_km).map Vehicle.id =
      (List.range count).map (fun k => mkId (k + 1)) := by
  rw [create_vehicles_around_location, List.map_map]
  rfl

/-- Claim C7: for every center, every `count ≥ 1` and every radius — and
every outcome of the generator's random draws — the generator returns
exactly `count` entities whose ids are the sequential zero-padded labels
`UBER-001` (`mkId 1`) through `UBER-{count}` (`mkId count`), with no
duplicate ids. -/
theorem generate_count_ids_nodup (m : PyMath) (g : GenDraws)
    (lat lng radius_km : ℚ) (count : ℕ) (hcount : 1 ≤ count) :
    (create_vehicles_around_location m g lat lng count radius_km).length = count ∧
      (create_vehicles_around_location m g lat lng count radius_km).map Vehicle.id =
        (List.range count).map (fun k => mkId (k + 1)) ∧
      ((create_vehicles_around_location m g lat lng count radius_km).map Vehicle.id).Nodup := by
  refine ⟨?_, create_vehicles_ids m g lat lng radius_km count, ?_⟩
  · rw [create_vehicles_around_location, List.length_map, List.length_range]
  · rw [create_vehicles_ids m g lat lng radius_km count]
    exact (List.nodup_range count).map
      fun a b hab => Nat.succ_injective (mkId_injective hab)

/-- Witness for C7 at `count = 3`. -/
theorem generate_count_ids_nodup_witness :
    (create_vehicles_around_location mZero gZero 0 0 3 5).length = 3 ∧
      (create_vehicles_around_location mZero gZero 0 0 3 5).map Vehicle.id =
        (List.range 3).map (fun k => mkId (k + 1)) ∧
      ((create_vehicles_around_location mZero gZero 0 0 3 5).map Vehicle.id).Nodup :=
  generate_count_ids_nodup mZero gZero 0 0 5 3 (by decide)

/-- Claim C2 (counterexample): an unparseable payload is not silently
ignored — `json.loads` raises, nothing catches the exception, so the
receive-loop step crashes (the server closes the connection and
`manager.disconnect` is never called) instead of continuing with the state
unchanged. -/
theorem unparseable_payload_crashes :
    websocket_receive_step mZero gZero (fun _ => 0) (fun _ => true) stInit none =
        StepOutcome.crash stInit ∧
      websocket_receive_step mZero gZero (fun _ => 0) (fun _ => true) stInit none ≠
        StepOutcome.ok stInit [] := by
  constructor
  · rfl
  · intro h
    exact StepOutcome.noConfusion h

/-- Claim C2 (amended): a `"user_location"` message whose `lat` or `lng` is
missing or falsy is silently ignored — the state (reference location, fleet,
subscriber set) is unchanged, nothing is broadcast and no exception is
raised.  (Unparseable payloads, and messages with truthy non-numeric
coordinates, instead raise out of the handler.) -/
theorem malformed_user_location_ignored (m : PyMath) (g : GenDraws) (ts : ℕ → ℚ)
    (ok : ℕ → Bool) (st : ServerState) (d : PyDict)
    (htype : pyGet d typeKey = some (JVal.str userLocationTag))
    (hmal : jTruthyOpt (pyGet d latKey) = false ∨ jTruthyOpt (pyGet d lngKey) = false) :
    websocket_receive_step m g ts ok st (some d) = StepOutcome.ok st [] := by
  unfold websocket_receive_step
  dsimp only
  rw [if_pos htype]
  cases hlat : pyGet d latKey with
  | none => rfl
  | some v =>
    cases hlng : pyGet d lngKey with
    | none => rfl
    | some w =>
      rw [hlat, hlng] at hmal
      dsimp only
      rcases hmal with h | h
      · simp only [jTruthyOpt] at h
        rw [h, Bool.false_and, if_neg (by simp)]
      · simp only [jTruthyOpt] at h
        rw [h, Bool.and_false, if_neg (by simp)]

/-- Witness for the amended C2: the spec's own malformed scenario
`{type: "user_location", lat: "bad"}` (no `lng`) is ignored. -/
theorem malformed_user_location_ignored_witness :
    websocket_receive_step mZero gZero (fun _ => 0) (fun _ => true) stInit (some dBad) =
      StepOutcome.ok stInit [] :=
  malformed_user_location_ignored mZero gZero (fun _ => 0) (fun _ => true) stInit dBad
    (by decide) (Or.inr (by decide))

/-- Claim C10: a well-formed `"user_location"` message whose `lat` or `lng`
is present but falsy (the number `0`, the empty string, or `null`) is treated
exactly like a missing coordinate: state unchanged, nothing broadcast. -/
theorem falsy_coordinate_ignored (m : PyMath) (g : GenDraws) (ts : ℕ → ℚ)
    (ok : ℕ → Bool) (st : ServerState) (d : PyDict) (v : JVal)
    (htype : pyGet d typeKey = some (JVal.str userLocationTag))
    (hfalsy : jTruthy v = false)
    (hcoord : pyGet d latKey = some v ∨ pyGet d lngKey = some v) :
    websocket_receive_step m g ts ok st (some d) = StepOutcome.ok st [] := by
  unfold websocket_receive_step
  dsimp only
  rw [if_pos htype]
  cases hlat : pyGet d latKey with
  | none => rfl
  | some x =>
    cases hlng : pyGet d lngKey with
    | none => rfl
    | some y =>
      dsimp only
      rcases hcoord with h | h
      · rw [hlat] at h
        obtain rfl : x = v := Option.some_inj.mp h
        rw [hfalsy, Bool.false_and, if_neg (by simp)]
      · rw [hlng] at h
        obtain rfl : y = v := Option.some_inj.mp h
        rw [hfalsy, Bool.and_false, if_neg (by simp)]

/-- Witness for C10: `{type: "user_location", lat: 0, lng: 5}` — a numeric
but zero latitude — leaves the state unchanged and broadcasts nothing. -/
theorem falsy_coordinate_ignored_witness :
    websocket_receive_step mZero gZero (fun _ => 0) (fun _ => true) stInit (some dZeroLat5) =
      StepOutcome.ok stInit [] :=
  falsy_coordinate_ignored mZero gZero (fun _ => 0) (fun _ => true) stInit dZeroLat5
    (JVal.num 0) (by decide) (by decide) (Or.inl (by decide))

/-- Claim C8 (counterexample): a `"user_location"` message with the numeric
coordinates `lat: 0, lng: 2` does not update anything — Python's truthiness
test `if new_lat and new_lng` treats the number `0` as missing, so the state
is unchanged and nothing is broadcast, although the claim requires the
reference location to become `(0, 2)`. -/
theorem zero_coordinate_defeats_update :
    websocket_receive_step mZero gZero (fun _ => 0) (fun _ => true) stInit (some dZeroLat) =
        StepOutcome.ok stInit [] ∧
      stInit.userLoc ≠ (JVal.num 0, JVal.num 2) := by
  constructor
  · decide
  · decide

/-- Claim C8 (amended): on a `"user_location"` message with numeric and
nonzero (hence truthy) `lat` and `lng`, and with every send succeeding, the
reference location becomes exactly `(lat, lng)`, the fleet is wholesale
replaced by a freshly generated one (default `count=10, radius_km=5`) whose
ids restart at `UBER-001`, and the single `location_updated` payload carrying
the full new snapshot plus the reference location is delivered through
`manager.broadcast` to every currently registered subscriber. -/
theorem truthy_user_location_updates (m : PyMath) (g : GenDraws) (ts : ℕ → ℚ)
    (ok : ℕ → Bool) (st : ServerState) (d : PyDict) (a b : ℚ)
    (htype : pyGet d typeKey = some (JVal.str userLocationTag))
    (hlat : pyGet d latKey = some (JVal.num a))
    (hlng : pyGet d lngKey = some (JVal.num b))
    (ha : a ≠ 0) (hb : b ≠ 0) (hok : ∀ c, ok c = true) :
    websocket_receive_step m g ts ok st (some d) =
        StepOutcome.ok
          { userLoc := (JVal.num a, JVal.num b),
            vehicles := create_vehicles_around_location m g a b 10 5,
            conns := st.conns }
          (st.conns.map (fun c =>
            (c, OutMsg.locationUpdated
              (snapshotList ts (create_vehicles_around_location m g a b 10 5))
              (JVal.num a, JVal.num b)))) ∧
      (create_vehicles_around_location m g a b 10 5).map Vehicle.id =
        (List.range 10).map (fun k => mkId (k + 1)) := by
  constructor
  · unfold websocket_receive_step
    dsimp only
    rw [if_pos htype, hlat, hlng]
    dsimp only
    rw [if_pos (show (jTruthy (JVal.num a) && jTruthy (JVal.num b)) = true by
      simp [jTruthy, ha, hb])]
    rw [broadcast_all_ok ok hok st.conns]
  · exact create_vehicles_ids m g a b 5 10

/-- Witness for the amended C8: the freshly generated fleet after
`{type: "user_location", lat: 1, lng: 2}` has ids `UBER-001 .. UBER-010`. -/
theorem truthy_user_location_updates_witness :
    (create_vehicles_around_location mZero gZero 1 2 10 5).map Vehicle.id =
      (List.range 10).map (fun k => mkId (k + 1)) :=
  (truthy_user_location_updates mZero gZero (fun _ => 0) (fun _ => true) stInit dGood 1 2
    (by decide) (by decide) (by decide) (by decide) (by decide) (fun _ => rfl)).2

/-- Claim C9: on every iteration `n` of the simulation loop (with every send
succeeding), every entity is advanced before any serialization happens — the
single `vehicle_update` payload is the serialization of the fully updated
fleet — and that one identical message is delivered to every registered
subscriber, after which the loop sleeps for the fixed `0.5` interval and
recurses into the next iteration with the post-tick state. -/
theorem simulation_tick_consistent (m : PyMath) (ds : ℕ → ℕ → UpdDraw)
    (ts : ℕ → ℕ → ℚ) (ok : ℕ → ℕ → Bool) (uloc : ℚ × ℚ)
    (init : List Vehicle × List ℕ) (n : ℕ) (hok : ∀ c, ok n c = true) :
    vehicle_simulation_tick m (ds n) (ts n) (ok n) uloc
        (vehicle_simulation_state m ds ts ok uloc init n).1
        (vehicle_simulation_state m ds ts ok uloc init n).2 =
      { vehicles := updateFleet m uloc (ds n)
          (vehicle_simulation_state m ds ts ok uloc init n).1,
        msg := OutMsg.vehicleUpdate (snapshotList (ts n) (updateFleet m uloc (ds n)
          (vehicle_simulation_state m ds ts ok uloc init n).1)),
        conns := (vehicle_simulation_state m ds ts ok uloc init n).2,
        deliveries := (vehicle_simulation_state m ds ts ok uloc init n).2.map (fun c =>
          (c, OutMsg.vehicleUpdate (snapshotList (ts n) (updateFleet m uloc (ds n)
            (vehicle_simulation_state m ds ts ok uloc init n).1)))),
        sleep := 1 / 2 } ∧
      vehicle_simulation_state m ds ts ok uloc init (n + 1) =
        (updateFleet m uloc (ds n) (vehicle_simulation_state m ds ts ok uloc init n).1,
          (vehicle_simulation_state m ds ts ok uloc init n).2) := by
  have htick :
      vehicle_simulation_tick m (ds n) (ts n) (ok n) uloc
          (vehicle_simulation_state m ds ts ok uloc init n).1
          (vehicle_simulation_state m ds ts ok uloc init n).2 =
        { vehicles := updateFleet m uloc (ds n)
            (vehicle_simulation_state m ds ts ok uloc init n).1,
          msg := OutMsg.vehicleUpdate (snapshotList (ts n) (updateFleet m uloc (ds n)
            (vehicle_simulation_state m ds ts ok uloc init n).1)),
          conns := (vehicle_simulation_state m ds ts ok uloc init n).2,
          deliveries := (vehicle_simulation_state m ds ts ok uloc init n).2.map (fun c =>
            (c, OutMsg.vehicleUpdate (snapshotList (ts n) (updateFleet m uloc (ds n)
              (vehicle_simulation_state m ds ts ok uloc init n).1)))),
          sleep := 1 / 2 } := by
    unfold vehicle_simulation_tick
    rw [broadcast_all_ok (ok n) hok]
  refine ⟨htick, ?_⟩
  show vehicle_simulation_state m ds ts ok uloc init (n + 1) = _
  simp only [vehicle_simulation_state]
  rw [htick]

/-- Witness for C9: the sleep interval of tick 0 of a concrete run is `0.5`. -/
theorem simulation_tick_consistent_witness :
    (vehicle_simulation_tick mZero (dsZ 0) (tsZ 0) (okT 0) (0, 0)
        (vehicle_simulation_state mZero dsZ tsZ okT (0, 0) ([vZero], [2]) 0).1
        (vehicle_simulation_state mZero dsZ tsZ okT (0, 0) ([vZero], [2]) 0).2).sleep
      = 1 / 2 := by
  have h := simulation_tick_consistent mZero dsZ tsZ okT (0, 0) ([vZero], [2]) 0
    (fun _ => rfl)
  rw [h.1]
